import Mathlib

/-!
# Verification of the Fly glider-simulator core

Shallow embedding of the procedural-world and flight-physics core of the
repository (src/js/noise.js, src/js/physics.js, and the world-generation
module) together with proofs of the specification claims.

Modelling conventions:
* JS numbers are modelled by an arbitrary `LinearOrderedField K` (with a
  `FloorRing` instance for `Math.floor`).  Arithmetic is exact; the claims
  settled here are about order/branch structure and exact formulas, not
  about binary floating-point rounding.
* The transcendental `Math` primitives (`cos`, `sin`, `sqrt`, `exp`,
  `acos`, `PI`) are kept abstract in a `FloatOps` record; theorems that
  need analytic facts about them take those facts as explicit hypotheses
  (satisfied e.g. by the real functions).
* JS `%` on integers is truncated remainder, i.e. `Int.tmod`.
* Mutable objects (`SeededRandom`, aircraft state) become explicit state
  passing; `performance.now()` becomes an explicit `now` argument.
* Rendering-only data (three.js scene, meshes, chunk management) is not
  modelled; it does not feed back into the fields the claims are about.
-/

set_option maxRecDepth 4000

namespace Fly

/-- Abstract interface for the JS `Math` primitives used by the source. -/
structure FloatOps (K : Type) where
  cos : K → K
  sin : K → K
  sqrt : K → K
  exp : K → K
  acos : K → K
  pi : K

/-- Hypothesis: `sqrt` is bounded below by the real square root
(`y ≤ √x` whenever `y² ≤ x`).  Holds for `Real.sqrt`. -/
def SqrtLB {K : Type} [LinearOrderedField K] (M : FloatOps K) : Prop :=
  ∀ x y : K, 0 ≤ y → y ^ 2 ≤ x → y ≤ M.sqrt x

/-- Hypothesis: `sqrt` is bounded above by the real square root
(`√x < y` whenever `0 ≤ x < y²`).  Holds for `Real.sqrt`. -/
def SqrtUB {K : Type} [LinearOrderedField K] (M : FloatOps K) : Prop :=
  ∀ x y : K, 0 ≤ x → 0 ≤ y → x < y ^ 2 → M.sqrt x < y

/-- Hypothesis: `exp` is everywhere positive.  Holds for `Real.exp`. -/
def ExpPos {K : Type} [LinearOrderedField K] (M : FloatOps K) : Prop :=
  ∀ x : K, 0 < M.exp x

/-! ## src/js/noise.js — `SeededRandom`

```js
export class SeededRandom {
  constructor(seed = 12345) { this.seed = seed; }
  next() {
    this.seed = (this.seed * 16807 + 0) % 2147483647;
    return (this.seed - 1) / 2147483646;
  }
  nextRange(min, max) { return min + this.next() * (max - min); }
  nextInt(min, max) { return Math.floor(this.nextRange(min, max)); }
}
```
The mutable `this.seed` becomes an explicit `Int` state. -/

/-- State update performed by `SeededRandom.next()`:
`seed = (seed * 16807 + 0) % 2147483647` (JS `%` = truncated remainder). -/
def srStep (s : Int) : Int := (s * 16807 + 0).tmod 2147483647

/-- One call of `next()`: the new seed together with the returned value
`(seed - 1) / 2147483646` (computed from the updated seed). -/
def srNext {K : Type} [LinearOrderedField K] (s : Int) : Int × K :=
  (srStep s, ((srStep s : K) - 1) / 2147483646)

/-- Seed state after `n` calls of `next()`. -/
def srState (s : Int) : Nat → Int
  | 0 => s
  | n + 1 => srStep (srState s n)

/-- The value returned by the `n`-th call of `next()` (`n ≥ 1`). -/
def srNthValue (K : Type) [LinearOrderedField K] (s : Int) (n : Nat) : K :=
  ((srState s n : K) - 1) / 2147483646

/-- `nextRange(min, max) = min + next() * (max - min)`. -/
def srNextRange {K : Type} [LinearOrderedField K] (s : Int) (lo hi : K) : Int × K :=
  let r := srNext (K := K) s
  (r.1, lo + r.2 * (hi - lo))

/-- `nextInt(min, max) = Math.floor(nextRange(min, max))`. -/
def srNextInt {K : Type} [LinearOrderedField K] [FloorRing K] (s : Int) (lo hi : K) :
    Int × Int :=
  let r := srNextRange (K := K) s lo hi
  (r.1, Int.floor r.2)

/-! ## src/js/noise.js — `PerlinNoise`

Immutable after construction: a 512-entry permutation table and 256
gradient vectors, both drawn from a `SeededRandom` seeded with the field's
seed.  JS typed-array reads are modelled with `List.getD _ 0`; all indices
produced by in-range draws are in bounds. -/

structure PerlinNoise (K : Type) where
  seed : Int
  perm : List Nat
  grad : List (K × K)

/-- One step `i` of the Fisher-Yates shuffle in `PerlinNoise._init`:
`j = rng.nextInt(0, i + 1); [p[i], p[j]] = [p[j], p[i]]`. -/
def fisherStep {K : Type} [LinearOrderedField K] [FloorRing K]
    (st : Int × List Nat) (i : Nat) : Int × List Nat :=
  let r := srNextInt (K := K) st.1 0 ((i : K) + 1)
  let j := r.2.toNat
  let a := st.2.getD i 0
  let b := st.2.getD j 0
  (r.1, (st.2.set i b).set j a)

/-- One gradient draw in `PerlinNoise._init`:
`a = rng.next() * Math.PI * 2; angles.push([Math.cos(a), Math.sin(a)])`. -/
def gradStep {K : Type} [LinearOrderedField K] (M : FloatOps K)
    (st : Int × List (K × K)) (_i : Nat) : Int × List (K × K) :=
  let r := srNext (K := K) st.1
  let a := r.2 * M.pi * 2
  (r.1, st.2 ++ [(M.cos a, M.sin a)])

/-- `PerlinNoise` construction (`constructor` + `_init`): identity
permutation of 0..255, Fisher-Yates shuffle for `i = 255 .. 1`, duplication
to 512 entries via `p[i & 255]`, then 256 random unit gradients. -/
def mkPerlin {K : Type} [LinearOrderedField K] [FloorRing K] (M : FloatOps K)
    (seed : Int) : PerlinNoise K :=
  let p0 := List.range 256
  let sh := ((List.range 255).map (fun k => 255 - k)).foldl (fisherStep (K := K)) (seed, p0)
  let g := (List.range 256).foldl (gradStep M) (sh.1, [])
  { seed := seed
    perm := (List.range 512).map (fun i => sh.2.getD (i % 256) 0)
    grad := g.2 }

/-- `_fade(t) = t * t * t * (t * (t * 6 - 15) + 10)`. -/
def fade {K : Type} [LinearOrderedField K] (t : K) : K :=
  t * t * t * (t * (t * 6 - 15) + 10)

/-- `_lerp(a, b, t) = a + t * (b - a)`. -/
def lerp {K : Type} [LinearOrderedField K] (a b t : K) : K := a + t * (b - a)

/-- `_dot(gi, x, y)`: dot product with gradient `grad[gi & 255]`. -/
def PerlinNoise.dotg {K : Type} [LinearOrderedField K] (p : PerlinNoise K)
    (gi : Nat) (x y : K) : K :=
  let g := p.grad.getD (gi % 256) (0, 0)
  g.1 * x + g.2 * y

/-- `noise2D(x, y)` as in the source.  `Math.floor(x) & 255` is modelled by
`(⌊x⌋ % 256).toNat` (`Int.emod` is non-negative, matching the JS bitmask on
the 32-bit range). -/
def noise2D {K : Type} [LinearOrderedField K] [FloorRing K] (p : PerlinNoise K)
    (x y : K) : K :=
  let xi := ((Int.floor x) % 256).toNat
  let yi := ((Int.floor y) % 256).toNat
  let xf := x - (Int.floor x : K)
  let yf := y - (Int.floor y : K)
  let u := fade xf
  let v := fade yf
  let aa := p.perm.getD (p.perm.getD xi 0 + yi) 0
  let ab := p.perm.getD (p.perm.getD xi 0 + yi + 1) 0
  let ba := p.perm.getD (p.perm.getD (xi + 1) 0 + yi) 0
  let bb := p.perm.getD (p.perm.getD (xi + 1) 0 + yi + 1) 0
  let x1 := lerp (p.dotg aa xf yf) (p.dotg ba (xf - 1) yf) u
  let x2 := lerp (p.dotg ab xf (yf - 1)) (p.dotg bb (xf - 1) (yf - 1)) u
  lerp x1 x2 v

/-- Octave recursion of `fbm`: returns `(sum, maxAmp)` for the given number
of remaining octaves, current amplitude and frequency. -/
def fbmGo {K : Type} [LinearOrderedField K] [FloorRing K] (p : PerlinNoise K)
    (x y lac gain : K) : Nat → K → K → K × K
  | 0, _, _ => (0, 0)
  | n + 1, amp, freq =>
    let r := fbmGo p x y lac gain n (amp * gain) (freq * lac)
    (noise2D p (x * freq) (y * freq) * amp + r.1, amp + r.2)

/-- `fbm(x, y, octaves, lacunarity = 2.0, gain = 0.5) = sum / maxAmp`. -/
def fbm {K : Type} [LinearOrderedField K] [FloorRing K] (p : PerlinNoise K)
    (x y : K) (octaves : Nat) (lac gain : K) : K :=
  let r := fbmGo p x y lac gain octaves 1 1
  r.1 / r.2

/-- Octave recursion of `ridgeNoise`: per octave `n = (1 - |noise2D|)²`,
amplitude halves, frequency doubles. -/
def ridgeGo {K : Type} [LinearOrderedField K] [FloorRing K] (p : PerlinNoise K)
    (x y : K) : Nat → K → K → K × K
  | 0, _, _ => (0, 0)
  | n + 1, amp, freq =>
    let r := ridgeGo p x y n (amp * (1/2)) (freq * 2)
    let nv := 1 - |noise2D p (x * freq) (y * freq)|
    (nv * nv * amp + r.1, amp + r.2)

/-- `ridgeNoise(x, y, octaves) = sum / maxAmp`. -/
def ridgeNoise {K : Type} [LinearOrderedField K] [FloorRing K] (p : PerlinNoise K)
    (x y : K) (octaves : Nat) : K :=
  let r := ridgeGo p x y octaves 1 1
  r.1 / r.2

/-! ## src/js/noise.js — biomes and terrain height -/

namespace BIOME

def OCEAN : Nat := 0

def PLAINS : Nat := 1

def MOUNTAINS : Nat := 2

def ISLAND : Nat := 3

def AIRPORT : Nat := 4

end BIOME

/-- `getBiome(x, z, terrainNoise, biomeNoise, islandNoise)` as in the
source (decimal scale factors written as exact rationals). -/
def getBiome {K : Type} [LinearOrderedField K] [FloorRing K]
    (tn bn isn : PerlinNoise K) (x z : K) : Nat :=
  let b := fbm bn (x * 0.0003) (z * 0.0003) 4 2 0.5
  let inl := fbm isn (x * 0.002) (z * 0.002) 3 2 0.5
  if b < -0.15 then
    if inl > 0.25 then BIOME.ISLAND else BIOME.OCEAN
  else
    let t := fbm tn (x * 0.0008) (z * 0.0008) 4 2 0.5
    if t > 0.3 then BIOME.MOUNTAINS else BIOME.PLAINS

/-- `getTerrainHeight(x, z, terrainNoise, biomeNoise, islandNoise)` as in
the source. -/
def getTerrainHeight {K : Type} [LinearOrderedField K] [FloorRing K]
    (tn bn isn : PerlinNoise K) (x z : K) : K :=
  let biome := getBiome tn bn isn x z
  let base := fbm tn (x * 0.001) (z * 0.001) 6 2 0.5
  let detail := fbm tn (x * 0.005) (z * 0.005) 3 2 0.5 * 0.15
  if biome = BIOME.OCEAN then -2
  else if biome = BIOME.PLAINS then (base * 0.5 + 0.5) * 40 + detail * 10 + 5
  else if biome = BIOME.MOUNTAINS then
    let ridge := ridgeNoise tn (x * 0.001) (z * 0.001) 5
    (base * 0.5 + 0.5) * 120 + ridge * 200 + detail * 30 + 50
  else if biome = BIOME.ISLAND then
    let inl := fbm isn (x * 0.002) (z * 0.002) 3 2 0.5
    let islandHeight := max 0 ((inl - 0.25) * 4)
    islandHeight * 80 + detail * 15 + 3
  else 10

/-! ## World generation module (`World` class)

`World` owns four noise fields, the airport and thermal lists and the wind;
the three.js scene/ocean-mesh/chunk bookkeeping is rendering-only and not
modelled. -/

/-- 3D vector (`THREE.Vector3`). -/
structure Vec3 (K : Type) where
  x : K
  y : K
  z : K

def vadd {K : Type} [LinearOrderedField K] (a b : Vec3 K) : Vec3 K :=
  ⟨a.x + b.x, a.y + b.y, a.z + b.z⟩

def vsmul {K : Type} [LinearOrderedField K] (c : K) (a : Vec3 K) : Vec3 K :=
  ⟨c * a.x, c * a.y, c * a.z⟩

/-- `THREE.Vector3.addScaledVector(b, c) = a + c • b`. -/
def vaddScaled {K : Type} [LinearOrderedField K] (a b : Vec3 K) (c : K) : Vec3 K :=
  vadd a (vsmul c b)

def vdot {K : Type} [LinearOrderedField K] (a b : Vec3 K) : K :=
  a.x * b.x + a.y * b.y + a.z * b.z

def vcross {K : Type} [LinearOrderedField K] (a b : Vec3 K) : Vec3 K :=
  ⟨a.y * b.z - a.z * b.y, a.z * b.x - a.x * b.z, a.x * b.y - a.y * b.x⟩

def vlengthSq {K : Type} [LinearOrderedField K] (a : Vec3 K) : K :=
  a.x * a.x + a.y * a.y + a.z * a.z

def vlength {K : Type} [LinearOrderedField K] (M : FloatOps K) (a : Vec3 K) : K :=
  M.sqrt (vlengthSq a)

/-- `THREE.Vector3.normalize()`: divide by `length || 1` (a zero length
leaves the vector unchanged). -/
def vnormalize {K : Type} [LinearOrderedField K] (M : FloatOps K) (a : Vec3 K) : Vec3 K :=
  let l := vlength M a
  let d := if l = 0 then 1 else l
  ⟨a.x / d, a.y / d, a.z / d⟩

/-- Airport record built by `World._createAirportData` (the lazily created
`mesh` is rendering-only and omitted). -/
structure Airport (K : Type) where
  id : Nat
  name : String
  x : K
  z : K
  elevation : K
  heading : K
  length : K
  width : K
  biome : Nat

/-- Thermal record pushed by `World._generateThermals`. -/
structure Thermal (K : Type) where
  x : K
  z : K
  strength : K
  radius : K
  maxAlt : K
  temperature : K
  biome : Nat
  turbulence : K
  active : Bool

def airportNames : List String :=
  ["Skyport Alpha", "Eagle Field", "Thermal Valley", "Ridge Station",
   "Windward Strip", "Coastal Air", "Summit Base", "Plains Central",
   "Volcano Point", "Island Hop", "Canyon Port", "Highland Field",
   "Lakeview Strip", "Desert Oasis", "Forest Clearing", "Mesa Top"]

/-- `World._createAirportData(x, z, rng, id)`: one heading draw, elevation
`max(terrainHeight, 5)`, cyclic name, runway 200 × 30.  Returns the airport
together with the advanced rng state. -/
def createAirportData {K : Type} [LinearOrderedField K] [FloorRing K] (M : FloatOps K)
    (tn bn isn : PerlinNoise K) (x z : K) (rng : Int) (id : Nat) : Airport K × Int :=
  let r := srNext (K := K) rng
  let heading := r.2 * M.pi
  let h := getTerrainHeight tn bn isn x z
  let elevation := max h 5
  (⟨id, airportNames.getD (id % airportNames.length) "", x, z, elevation, heading,
    200, 30, getBiome tn bn isn x z⟩, r.1)

/-- One iteration of the candidate loop in `World._generateAirports`:
draw angle and distance, reject ocean candidates and candidates closer
than 1500 to an existing airport, otherwise push a new airport. -/
def airportAttempt {K : Type} [LinearOrderedField K] [FloorRing K] (M : FloatOps K)
    (tn bn isn : PerlinNoise K) (st : Int × List (Airport K)) : Int × List (Airport K) :=
  let r1 := srNext (K := K) st.1
  let angle := r1.2 * M.pi * 2
  let r2 := srNext (K := K) r1.1
  let dist := 1500 + r2.2 * 6000
  let ax := M.cos angle * dist
  let az := M.sin angle * dist
  if getBiome tn bn isn ax az = BIOME.OCEAN then (r2.1, st.2)
  else
    let tooClose := st.2.any fun ap =>
      decide (M.sqrt ((ax - ap.x) ^ 2 + (az - ap.z) ^ 2) < 1500)
    if tooClose then (r2.1, st.2)
    else
      let r3 := createAirportData M tn bn isn ax az r2.1 st.2.length
      (r3.2, st.2 ++ [r3.1])

/-- The `while (airports.length < count && attempts < 500)` loop, with the
remaining attempt budget as fuel. -/
def airportLoop {K : Type} [LinearOrderedField K] [FloorRing K] (M : FloatOps K)
    (tn bn isn : PerlinNoise K) : Nat → Int × List (Airport K) → List (Airport K)
  | 0, st => st.2
  | fuel + 1, st =>
    if st.2.length < 12 then airportLoop M tn bn isn fuel (airportAttempt M tn bn isn st)
    else st.2

/-- `World._generateAirports()`: rng seeded with `seed + 500`, first
airport forced to `(0, 0)`, then up to 500 further candidate attempts. -/
def generateAirports {K : Type} [LinearOrderedField K] [FloorRing K] (M : FloatOps K)
    (tn bn isn : PerlinNoise K) (seed : Int) : List (Airport K) :=
  let first := createAirportData M tn bn isn 0 0 (seed + 500) 0
  airportLoop M tn bn isn 500 (first.2, [first.1])

/-- One iteration of the 80-draw loop in `World._generateThermals`:
position draw, ocean discard, per-biome parameter draws, turbulence draw. -/
def thermalAttempt {K : Type} [LinearOrderedField K] [FloorRing K] (M : FloatOps K)
    (tn bn isn : PerlinNoise K) (st : Int × List (Thermal K)) : Int × List (Thermal K) :=
  let r1 := srNext (K := K) st.1
  let angle := r1.2 * M.pi * 2
  let r2 := srNext (K := K) r1.1
  let dist := r2.2 * 8000
  let tx := M.cos angle * dist
  let tz := M.sin angle * dist
  let biome := getBiome tn bn isn tx tz
  if biome = BIOME.OCEAN then (r2.1, st.2)
  else
    let d : Int × (K × K × K × K) :=
      if biome = BIOME.PLAINS then
        let a := srNext (K := K) r2.1
        let b := srNext (K := K) a.1
        let c := srNext (K := K) b.1
        let e := srNext (K := K) c.1
        (e.1, (2 + a.2 * 3, 80 + b.2 * 120, 1500 + c.2 * 500, 25 + e.2 * 10))
      else if biome = BIOME.MOUNTAINS then
        let a := srNext (K := K) r2.1
        let b := srNext (K := K) a.1
        let c := srNext (K := K) b.1
        let e := srNext (K := K) c.1
        (e.1, (3 + a.2 * 4, 60 + b.2 * 100, 3000 + c.2 * 1000, 20 + e.2 * 8))
      else if biome = BIOME.ISLAND then
        let a := srNext (K := K) r2.1
        let b := srNext (K := K) a.1
        let c := srNext (K := K) b.1
        let e := srNext (K := K) c.1
        (e.1, (6 + a.2 * 6, 40 + b.2 * 60, 4000 + c.2 * 1000, 40 + e.2 * 15))
      else
        let a := srNext (K := K) r2.1
        let b := srNext (K := K) a.1
        (b.1, (2 + a.2 * 2, 80 + b.2 * 80, 1200, 22))
    let t := srNext (K := K) d.1
    let turb := if biome = BIOME.ISLAND then 0.5 + t.2 * 0.5 else t.2 * 0.3
    (t.1, st.2 ++ [⟨tx, tz, d.2.1, d.2.2.1, d.2.2.2.1, d.2.2.2.2, biome, turb, true⟩])

/-- `World._generateThermals()`: rng seeded with `seed + 700`, exactly 80
draws, ocean draws discarded. -/
def generateThermals {K : Type} [LinearOrderedField K] [FloorRing K] (M : FloatOps K)
    (tn bn isn : PerlinNoise K) (seed : Int) : List (Thermal K) :=
  ((List.range 80).foldl (fun st _ => thermalAttempt M tn bn isn st) (seed + 700, [])).2

/-- The `World` state after construction. -/
structure World (K : Type) where
  seed : Int
  terrainNoise : PerlinNoise K
  biomeNoise : PerlinNoise K
  islandNoise : PerlinNoise K
  thermalNoise : PerlinNoise K
  airports : List (Airport K)
  thermals : List (Thermal K)
  windDirection : Vec3 K
  windSpeed : K

/-- `new World(scene, seed)` (the scene and ocean mesh are rendering-only):
four noise fields at seed offsets 0/100/200/300, wind `(1,0,0.3)`
normalized at speed 5, then `_generateAirports` and `_generateThermals`. -/
def mkWorld {K : Type} [LinearOrderedField K] [FloorRing K] (M : FloatOps K)
    (seed : Int) : World K :=
  let tn := mkPerlin M seed
  let bn := mkPerlin M (seed + 100)
  let isn := mkPerlin M (seed + 200)
  let thn := mkPerlin M (seed + 300)
  { seed := seed
    terrainNoise := tn
    biomeNoise := bn
    islandNoise := isn
    thermalNoise := thn
    airports := generateAirports M tn bn isn seed
    thermals := generateThermals M tn bn isn seed
    windDirection := vnormalize M ⟨1, 0, 0.3⟩
    windSpeed := 5 }

/-- Loop body of the thermal summation in `World.getThermalLift`: on the
accumulator `(totalLift, maxTemp, turbulence)`, a thermal within planar
`radius` and below `maxAlt` adds its Gaussian/altitude-attenuated lift and
maxes the falloff-scaled temperature and turbulence. -/
def thermalStep {K : Type} [LinearOrderedField K] (M : FloatOps K)
    (x y z : K) (acc : K × K × K) (th : Thermal K) : K × K × K :=
  let dx := x - th.x
  let dz := z - th.z
  let dist := M.sqrt (dx * dx + dz * dz)
  if dist < th.radius ∧ y < th.maxAlt then
    let factor := M.exp (-(dist * dist) / (2 * (th.radius * 0.5) ^ 2))
    let altFactor := 1 - y / th.maxAlt
    let lift := th.strength * factor * max 0 altFactor
    (acc.1 + lift, max acc.2.1 (th.temperature * factor), max acc.2.2 (th.turbulence * factor))
  else acc

def World.getHeightAt {K : Type} [LinearOrderedField K] [FloorRing K]
    (w : World K) (x z : K) : K :=
  getTerrainHeight w.terrainNoise w.biomeNoise w.islandNoise x z

def World.getBiomeAt {K : Type} [LinearOrderedField K] [FloorRing K]
    (w : World K) (x z : K) : Nat :=
  getBiome w.terrainNoise w.biomeNoise w.islandNoise x z

/-- `World._getRidgeLift(x, y, z)`: slope normal from 20-unit finite
differences, windward dot product, linear attenuation to zero at 300 units
above ground. -/
def getRidgeLift {K : Type} [LinearOrderedField K] [FloorRing K] (M : FloatOps K)
    (w : World K) (x y z : K) : K :=
  let s : K := 20
  let h0 := getTerrainHeight w.terrainNoise w.biomeNoise w.islandNoise x z
  let hx := getTerrainHeight w.terrainNoise w.biomeNoise w.islandNoise (x + s) z
  let hz := getTerrainHeight w.terrainNoise w.biomeNoise w.islandNoise x (z + s)
  let slopeX := (hx - h0) / s
  let slopeZ := (hz - h0) / s
  let normal := vnormalize M ⟨-slopeX, 1, -slopeZ⟩
  let heightAboveTerrain := y - h0
  if heightAboveTerrain < 0 ∨ heightAboveTerrain > 300 then 0
  else
    let windComponent := vdot w.windDirection ⟨normal.x, 0, normal.z⟩
    if windComponent ≤ 0 then 0
    else
      let proximity := 1 - heightAboveTerrain / 300
      windComponent * w.windSpeed * 0.4 * proximity

/-- `World.getThermalLift(x, y, z)`: constant ocean sink, otherwise the
fold of `thermalStep` over all thermals, plus ridge lift in mountains.
Returns `(lift, temperature, turbulence)`. -/
def World.getThermalLift {K : Type} [LinearOrderedField K] [FloorRing K] (M : FloatOps K)
    (w : World K) (x y z : K) : K × K × K :=
  let biome := getBiome w.terrainNoise w.biomeNoise w.islandNoise x z
  if biome = BIOME.OCEAN then (-1.5, 12, 0.1)
  else
    let acc := w.thermals.foldl (thermalStep M x y z) (0, 15, 0)
    let totalLift :=
      if biome = BIOME.MOUNTAINS then acc.1 + getRidgeLift M w x y z else acc.1
    (totalLift, acc.2.1, acc.2.2)

/-- `World.getAirportAt(x, y, z)`: first airport whose runway-local frame
contains `(x, z)` within half length/width and whose elevation is within
10 units of `y`. -/
def World.getAirportAt {K : Type} [LinearOrderedField K] (M : FloatOps K)
    (w : World K) (x y z : K) : Option (Airport K) :=
  w.airports.findSome? fun ap =>
    let dx := x - ap.x
    let dz := z - ap.z
    let c := M.cos (-ap.heading)
    let s := M.sin (-ap.heading)
    let lx := dx * c - dz * s
    let lz := dx * s + dz * c
    if |lx| < ap.length / 2 ∧ |lz| < ap.width / 2 ∧ |y - ap.elevation| < 10 then some ap
    else none

/-! ## src/js/physics.js — `FlightPhysics`

Quaternions follow the three.js conventions used by the source
(`setFromEuler` with `XYZ`/`YXZ` order, `multiply`, `normalize`,
`Vector3.applyQuaternion`). -/

/-- Quaternion (`THREE.Quaternion`), components `(x, y, z, w)`. -/
structure Quat (K : Type) where
  x : K
  y : K
  z : K
  w : K

/-- `THREE.Quaternion.multiplyQuaternions(a, b)` (Hamilton product). -/
def quatMul {K : Type} [LinearOrderedField K] (a b : Quat K) : Quat K :=
  ⟨a.x * b.w + a.w * b.x + a.y * b.z - a.z * b.y,
   a.y * b.w + a.w * b.y + a.z * b.x - a.x * b.z,
   a.z * b.w + a.w * b.z + a.x * b.y - a.y * b.x,
   a.w * b.w - a.x * b.x - a.y * b.y - a.z * b.z⟩

/-- `THREE.Quaternion.normalize()`: zero length yields the identity
quaternion, otherwise divide all components by the length. -/
def quatNormalize {K : Type} [LinearOrderedField K] (M : FloatOps K) (q : Quat K) : Quat K :=
  let l := M.sqrt (q.x * q.x + q.y * q.y + q.z * q.z + q.w * q.w)
  if l = 0 then ⟨0, 0, 0, 1⟩ else ⟨q.x / l, q.y / l, q.z / l, q.w / l⟩

/-- `THREE.Quaternion.setFromEuler(Euler(ex, ey, ez, 'XYZ'))`. -/
def quatFromEulerXYZ {K : Type} [LinearOrderedField K] (M : FloatOps K)
    (ex ey ez : K) : Quat K :=
  let c1 := M.cos (ex / 2)
  let c2 := M.cos (ey / 2)
  let c3 := M.cos (ez / 2)
  let s1 := M.sin (ex / 2)
  let s2 := M.sin (ey / 2)
  let s3 := M.sin (ez / 2)
  ⟨s1 * c2 * c3 + c1 * s2 * s3,
   c1 * s2 * c3 - s1 * c2 * s3,
   c1 * c2 * s3 + s1 * s2 * c3,
   c1 * c2 * c3 - s1 * s2 * s3⟩

/-- `THREE.Quaternion.setFromEuler(Euler(ex, ey, ez, 'YXZ'))`. -/
def quatFromEulerYXZ {K : Type} [LinearOrderedField K] (M : FloatOps K)
    (ex ey ez : K) : Quat K :=
  let c1 := M.cos (ex / 2)
  let c2 := M.cos (ey / 2)
  let c3 := M.cos (ez / 2)
  let s1 := M.sin (ex / 2)
  let s2 := M.sin (ey / 2)
  let s3 := M.sin (ez / 2)
  ⟨s1 * c2 * c3 + c1 * s2 * s3,
   c1 * s2 * c3 - s1 * c2 * s3,
   c1 * c2 * s3 - s1 * s2 * c3,
   c1 * c2 * c3 + s1 * s2 * s3⟩

/-- `THREE.Vector3.applyQuaternion(q)`. -/
def applyQuat {K : Type} [LinearOrderedField K] (v : Vec3 K) (q : Quat K) : Vec3 K :=
  let tx := 2 * (q.y * v.z - q.z * v.y)
  let ty := 2 * (q.z * v.x - q.x * v.z)
  let tz := 2 * (q.x * v.y - q.y * v.x)
  ⟨v.x + q.w * tx + q.y * tz - q.z * ty,
   v.y + q.w * ty + q.z * tx - q.x * tz,
   v.z + q.w * tz + q.x * ty - q.y * tx⟩

/-- Air density `RHO = 1.225`. -/
def RHO {K : Type} [LinearOrderedField K] : K := 1.225

/-- Gravity `G = 9.81`. -/
def GRAV {K : Type} [LinearOrderedField K] : K := 9.81

/-- Aircraft configuration (default overwritten by the plane module; the
`aspect` field is named `aspectRatio` in the source). -/
structure Config (K : Type) where
  mass : K
  cargoMass : K
  wingArea : K
  aspect : K
  cd0 : K
  e : K
  rollRate : K
  pitchRate : K
  yawRate : K
  maxSpeed : K
  stallSpeed : K
  brakeCD : K

/-- `FlightPhysics._defaultConfig()`. -/
def defaultConfig {K : Type} [LinearOrderedField K] : Config K :=
  { mass := 300
    cargoMass := 0
    wingArea := 15
    aspect := 18
    cd0 := 0.015
    e := 0.85
    rollRate := 1.2
    pitchRate := 0.8
    yawRate := 0.3
    maxSpeed := 250 / 3.6
    stallSpeed := 60 / 3.6
    brakeCD := 0.05 }

/-- Mutable aircraft state owned by `FlightPhysics`. -/
structure State (K : Type) where
  position : Vec3 K
  velocity : Vec3 K
  orientation : Quat K
  angularVelocity : Vec3 K
  pitchInput : K
  rollInput : K
  yawInput : K
  brakeInput : K
  config : Config K
  isLaunching : Bool
  launchThrust : K
  launchTimer : K
  stalling : Bool
  crashed : Bool
  landed : Bool
  thermalHeatTime : K
  currentTemp : K
  cargoSpoiled : Bool
  turbulenceOffset : Vec3 K

/-- `FlightPhysics` constructor state. -/
def initialState {K : Type} [LinearOrderedField K] : State K :=
  { position := ⟨0, 300, 0⟩
    velocity := ⟨0, 0, -20⟩
    orientation := ⟨0, 0, 0, 1⟩
    angularVelocity := ⟨0, 0, 0⟩
    pitchInput := 0
    rollInput := 0
    yawInput := 0
    brakeInput := 0
    config := defaultConfig
    isLaunching := false
    launchThrust := 0
    launchTimer := 0
    stalling := false
    crashed := false
    landed := true
    thermalHeatTime := 0
    currentTemp := 15
    cargoSpoiled := false
    turbulenceOffset := ⟨0, 0, 0⟩ }

/-- `get totalMass() = mass + cargoMass`. -/
def totalMass {K : Type} [LinearOrderedField K] (s : State K) : K :=
  s.config.mass + s.config.cargoMass

/-- `get speed() = velocity.length()`. -/
def speed {K : Type} [LinearOrderedField K] (M : FloatOps K) (s : State K) : K :=
  vlength M s.velocity

/-- `get speedKmh() = speed * 3.6`. -/
def speedKmh {K : Type} [LinearOrderedField K] (M : FloatOps K) (s : State K) : K :=
  speed M s * 3.6

/-- `get forward()`: `(0,0,-1)` rotated by the orientation, normalized. -/
def forward {K : Type} [LinearOrderedField K] (M : FloatOps K) (s : State K) : Vec3 K :=
  vnormalize M (applyQuat ⟨0, 0, -1⟩ s.orientation)

/-- `get up()`: `(0,1,0)` rotated by the orientation, normalized. -/
def upVec {K : Type} [LinearOrderedField K] (M : FloatOps K) (s : State K) : Vec3 K :=
  vnormalize M (applyQuat ⟨0, 1, 0⟩ s.orientation)

/-- `get right()`: `(1,0,0)` rotated by the orientation, normalized. -/
def rightVec {K : Type} [LinearOrderedField K] (M : FloatOps K) (s : State K) : Vec3 K :=
  vnormalize M (applyQuat ⟨1, 0, 0⟩ s.orientation)

/-- `FlightPhysics.getAngleOfAttack()`. -/
def getAngleOfAttack {K : Type} [LinearOrderedField K] (M : FloatOps K) (s : State K) : K :=
  if speed M s < 0.1 then 0
  else
    let velDir := vnormalize M s.velocity
    let fwd := forward M s
    let d := vdot velDir fwd
    let c := vcross velDir fwd
    let sign : K := if vdot c (rightVec M s) > 0 then 1 else -1
    sign * M.acos (min 1 (max (-1) d))

/-- `getCL(aoa)`: piecewise lift-coefficient curve in attack-angle
degrees. -/
def getCL {K : Type} [LinearOrderedField K] (M : FloatOps K) (aoa : K) : K :=
  let deg := aoa * (180 / M.pi)
  if deg < -10 then -0.4
  else if deg > 18 then 0.8 - (deg - 18) * 0.1
  else min 1.6 (max (-0.5) (0.1 + deg * 0.1))

/-- `getCD(cl, aspectRatio, cd0, e) = cd0 + cl² / (π·AR·e)`. -/
def getCD {K : Type} [LinearOrderedField K] (M : FloatOps K) (cl ar cd0 e : K) : K :=
  cd0 + (cl * cl) / (M.pi * ar * e)

/-- `FlightPhysics.launch(type)`: clears landed/crashed/spoilage/heat,
then the `'cable'` branch (15 m/s, thrust `mass·G·1.5`, 4 s) or the
aerotow branch taken for every other argument (25 m/s, thrust
`mass·G·1.2`, 15 s). -/
def launch {K : Type} [LinearOrderedField K] (M : FloatOps K) (ty : String)
    (s : State K) : State K :=
  let s0 := { s with landed := false, crashed := false, isLaunching := true,
                     cargoSpoiled := false, thermalHeatTime := 0 }
  if ty = "cable" then
    { s0 with launchThrust := totalMass s * GRAV * 1.5, launchTimer := 4,
              velocity := vsmul 15 (forward M s0) }
  else
    { s0 with launchThrust := totalMass s * GRAV * 1.2, launchTimer := 15,
              velocity := vsmul 25 (forward M s0) }

/-- `FlightPhysics.resetAt(airport)`. -/
def resetAt {K : Type} [LinearOrderedField K] (M : FloatOps K) (ap : Airport K)
    (s : State K) : State K :=
  { s with position := ⟨ap.x, ap.elevation + 2, ap.z⟩
           velocity := ⟨0, 0, 0⟩
           orientation := quatFromEulerXYZ M 0 ap.heading 0
           angularVelocity := ⟨0, 0, 0⟩
           landed := true
           crashed := false
           isLaunching := false
           stalling := false
           thermalHeatTime := 0
           cargoSpoiled := false
           currentTemp := 15
           turbulenceOffset := ⟨0, 0, 0⟩ }

/-- The slice of `World` consumed by `FlightPhysics.update`. -/
structure WorldI (K : Type) where
  getThermalLift : K → K → K → K × K × K
  getHeightAt : K → K → K
  getAirportAt : K → K → K → Option (Airport K)
  windDirection : Vec3 K
  windSpeed : K

/-- The interface a constructed `World` presents to the integrator. -/
def World.interface {K : Type} [LinearOrderedField K] [FloorRing K] (M : FloatOps K)
    (w : World K) : WorldI K :=
  ⟨w.getThermalLift M, w.getHeightAt, w.getAirportAt M, w.windDirection, w.windSpeed⟩

/-- Return value of `FlightPhysics.update` (`none` models the bare
`return` taken when landed or crashed). -/
inductive UpdateResult where
  | flying : UpdateResult
  | landing : UpdateResult
  | landed : UpdateResult
  | crashed : UpdateResult
deriving DecidableEq

/-- Orientation section of `update`: control inputs scaled by rate limits
become the angular velocity; its `dt`-scaled Euler angles (order `YXZ`)
multiply the orientation, which is then renormalized. -/
def orientationStep {K : Type} [LinearOrderedField K] (M : FloatOps K)
    (dt : K) (s : State K) : State K :=
  let rollTorque := s.rollInput * s.config.rollRate
  let pitchTorque := s.pitchInput * s.config.pitchRate
  let yawTorque := s.yawInput * s.config.yawRate
  let av : Vec3 K := ⟨pitchTorque, yawTorque, -rollTorque⟩
  let dq := quatFromEulerYXZ M (av.x * dt) (av.y * dt) (av.z * dt)
  { s with angularVelocity := av
           orientation := quatNormalize M (quatMul s.orientation dq) }

/-- Ground-collision section of `update` (lines 277–303 of physics.js):
below `terrain + 1`, a slow touch-down on an airport decelerates and
eventually lands, anything else crashes. -/
def groundStep {K : Type} [LinearOrderedField K] (M : FloatOps K)
    (w : WorldI K) (s : State K) : State K × Option UpdateResult :=
  let groundH := w.getHeightAt s.position.x s.position.z
  let airport := w.getAirportAt s.position.x s.position.y s.position.z
  if s.position.y ≤ groundH + 1 then
    let vSpeed := |s.velocity.y|
    let hSpeed := speedKmh M s
    match airport with
    | some ap =>
      if vSpeed < 2 ∧ hSpeed < 40 then
        let s1 := { s with position := ⟨s.position.x, ap.elevation + 1, s.position.z⟩
                           velocity := vsmul 0.95 s.velocity }
        if speedKmh M s1 < 2 then
          ({ s1 with velocity := ⟨0, 0, 0⟩, landed := true }, some UpdateResult.landed)
        else (s1, some UpdateResult.landing)
      else
        ({ s with crashed := true, velocity := ⟨0, 0, 0⟩,
                  position := ⟨s.position.x, groundH + 2, s.position.z⟩ },
         some UpdateResult.crashed)
    | none =>
      ({ s with crashed := true, velocity := ⟨0, 0, 0⟩,
                position := ⟨s.position.x, groundH + 2, s.position.z⟩ },
       some UpdateResult.crashed)
  else (s, some UpdateResult.flying)

/-- `FlightPhysics.update(dt, world)`.  `world` is optional as in the JS
(`if (world)` guards); `now` is the ambient `performance.now()` value used
by the turbulence jitter.  Returns the new state and the JS return value. -/
def update {K : Type} [LinearOrderedField K] (M : FloatOps K) (dt : K)
    (world : Option (WorldI K)) (now : K) (s : State K) :
    State K × Option UpdateResult :=
  if s.landed || s.crashed then (s, none)
  else
    let cfg := s.config
    let mass := totalMass s
    let v := speed M s
    let q := 0.5 * RHO * v * v
    -- orientation update from controls
    let s1 := orientationStep M dt s
    -- aerodynamic forces
    let aoa := getAngleOfAttack M s1
    let cl := getCL M aoa
    let cd := getCD M cl cfg.aspect cfg.cd0 cfg.e + s.brakeInput * cfg.brakeCD
    let liftMag := cl * q * cfg.wingArea
    let velDir := if v > 0.5 then vnormalize M s.velocity
                  else vsmul (-1) (forward M s1)
    let liftDir0 := upVec M s1
    let liftDir := vnormalize M (vaddScaled liftDir0 velDir (-(vdot liftDir0 velDir)))
    let forces0 : Vec3 K := ⟨0, -(mass * GRAV), 0⟩
    let forces1 := vaddScaled forces0 liftDir liftMag
    let dragMag := cd * q * cfg.wingArea
    let forces2 := if v > 0.5 then vaddScaled forces1 velDir (-dragMag) else forces1
    -- launch thrust
    let launchState :=
      if s1.isLaunching ∧ s1.launchTimer > 0 then
        let td0 := forward M s1
        let td := vnormalize M ⟨td0.x, max td0.y 0.3, td0.z⟩
        let f := vaddScaled forces2 td s1.launchThrust
        let lt := s1.launchTimer - dt
        if lt ≤ 0 then (f, { s1 with launchTimer := lt, isLaunching := false, launchThrust := 0 })
        else (f, { s1 with launchTimer := lt })
      else (forces2, s1)
    -- environmental forces
    let envState :=
      match world with
      | none => launchState
      | some w =>
        let th := w.getThermalLift s.position.x s.position.y s.position.z
        let f1 := if th.1 ≠ 0 then
            { launchState.1 with y := launchState.1.y + th.1 * mass * 0.5 }
          else launchState.1
        let s2 := { launchState.2 with currentTemp := th.2.1 }
        let s3 := if th.2.1 > 30 then
            let hh := s2.thermalHeatTime + dt
            if hh > 10 then { s2 with thermalHeatTime := hh, cargoSpoiled := true }
            else { s2 with thermalHeatTime := hh }
          else s2
        let turbState := if th.2.2 > 0 then
            let t := now * 0.003
            let toff : Vec3 K := ⟨M.sin (t * 3.7) * th.2.2 * 2,
                                  M.sin (t * 2.3) * th.2.2 * 1.5,
                                  M.sin (t * 4.1) * th.2.2 * 2⟩
            (vadd f1 (vsmul (mass * 0.5) toff), { s3 with turbulenceOffset := toff })
          else (f1, s3)
        (vaddScaled turbState.1 w.windDirection (w.windSpeed * mass * 0.02), turbState.2)
    -- stall detection
    let aoaDeg := |aoa * 180 / M.pi|
    let stalling := aoaDeg > 16 ∨ v < cfg.stallSpeed * 0.9
    let s4 := { envState.2 with stalling := decide stalling }
    let s5 := if stalling ∧ v < cfg.stallSpeed then
        { s4 with orientation := quatMul s4.orientation (quatFromEulerXYZ M (dt * 0.5) 0 0) }
      else s4
    -- integrate (explicit Euler), clamp speed, advance position
    let accel := vsmul (1 / mass) envState.1
    let vel1 := vaddScaled s.velocity accel dt
    let vel2 := if vlength M vel1 > cfg.maxSpeed then vsmul cfg.maxSpeed (vnormalize M vel1)
                else vel1
    let s6 := { s5 with velocity := vel2,
                        position := vaddScaled s5.position vel2 dt }
    -- ground collision
    match world with
    | none => (s6, some UpdateResult.flying)
    | some w => groundStep M w s6

/-! ## Claim C2 — range of `SeededRandom.next()`

The claim quantifies over *every* integer seed.  It fails for seed `0`
(and any seed whose residue mod 2147483647 is non-positive): the state
stays at `0` and `next()` returns `-1 / 2147483646 < 0`.  For positive
seeds not divisible by the modulus the claimed interval is correct. -/

/-- The good-seed invariant of the LCG: a positive state not divisible by
the modulus `2147483647`. -/
def GoodSeed (s : Int) : Prop := 0 < s ∧ ¬ (2147483647 : Int) ∣ s

/-- Bézout certificate: `16807` is invertible modulo `2147483647`,
so the LCG step cannot map a good seed to a multiple of the modulus. -/
lemma lcg_bezout : (16807 : Int) * 1407677000 + 2147483647 * (-11017) = 1 := by decide

lemma srStep_good {s : Int} (h : GoodSeed s) : GoodSeed (srStep s) := by
  obtain ⟨hpos, hndvd⟩ := h
  have hprod : (0 : Int) ≤ s * 16807 + 0 := by positivity
  have hmod : srStep s = (s * 16807 + 0) % 2147483647 := by
    unfold srStep
    exact Int.tmod_eq_emod hprod (by norm_num)
  have hnonneg : 0 ≤ srStep s := by
    rw [hmod]; exact Int.emod_nonneg _ (by norm_num)
  have hlt : srStep s < 2147483647 := by
    rw [hmod]; exact Int.emod_lt_of_pos _ (by norm_num)
  have hne : srStep s ≠ 0 := by
    intro h0
    have hdvd : (2147483647 : Int) ∣ s * 16807 + 0 := by
      have := Int.dvd_of_tmod_eq_zero (a := 2147483647) (b := s * 16807 + 0)
      exact this h0
    have hdvd' : (2147483647 : Int) ∣ s * 16807 := by simpa using hdvd
    have : (2147483647 : Int) ∣ s := by
      have hs : s = s * 16807 * 1407677000 + 2147483647 * (-11017 * s) := by
        have := lcg_bezout
        nlinarith [this]
      rw [hs]
      exact dvd_add (hdvd'.mul_right _) (Dvd.intro _ rfl)
    exact hndvd this
  refine ⟨lt_of_le_of_ne hnonneg (Ne.symm hne), ?_⟩
  intro hdvd
  have := Int.le_of_dvd (lt_of_le_of_ne hnonneg (Ne.symm hne)) hdvd
  omega

lemma srStep_bounds {s : Int} (h : GoodSeed s) :
    1 ≤ srStep s ∧ srStep s ≤ 2147483646 := by
  obtain ⟨hpos, _⟩ := h
  have hprod : (0 : Int) ≤ s * 16807 + 0 := by positivity
  have hmod : srStep s = (s * 16807 + 0) % 2147483647 := by
    unfold srStep
    exact Int.tmod_eq_emod hprod (by norm_num)
  have hlt : srStep s < 2147483647 := by
    rw [hmod]; exact Int.emod_lt_of_pos _ (by norm_num)
  have hgood := srStep_good ⟨hpos, ‹¬ (2147483647 : Int) ∣ s›⟩
  exact ⟨hgood.1, by omega⟩

lemma srState_good {s : Int} (h : GoodSeed s) (n : Nat) : GoodSeed (srState s n) := by
  induction n with
  | zero => exact h
  | succ n ih => exact srStep_good ih

/-- Claim C2 (as stated) is false: with seed `0` the first value returned
by `next()` is `-1 / 2147483646`, which is outside `[0, 1)`. -/
theorem C2_counterexample :
    ¬ (0 ≤ srNthValue ℚ 0 1 ∧ srNthValue ℚ 0 1 < 1) := by
  intro hc
  have hstate : srState 0 1 = 0 := by decide
  have : srNthValue ℚ 0 1 = -1 / 2147483646 := by
    unfold srNthValue
    rw [hstate]
    norm_num
  rw [this] at hc
  norm_num at hc

/-- Claim C2 (amended): for every *positive* integer seed that is not a
multiple of 2147483647, and every `n ≥ 1`, the `n`-th value returned by
`next()` lies in `[0, 1)`. -/
theorem C2_next_in_unit_interval (K : Type) [LinearOrderedField K]
    (s : Int) (hs : 0 < s) (hnd : ¬ (2147483647 : Int) ∣ s) (n : Nat) (hn : 1 ≤ n) :
    0 ≤ srNthValue K s n ∧ srNthValue K s n < 1 := by
  obtain ⟨m, rfl⟩ : ∃ m, n = m + 1 := ⟨n - 1, by omega⟩
  have hgood : GoodSeed (srState s m) := srState_good ⟨hs, hnd⟩ m
  have hbounds := srStep_bounds hgood
  have hstate : srState s (m + 1) = srStep (srState s m) := rfl
  unfold srNthValue
  rw [hstate]
  constructor
  · apply div_nonneg _ (by norm_num)
    have : (1 : K) ≤ (srStep (srState s m) : K) := by
      exact_mod_cast hbounds.1
    linarith
  · rw [div_lt_one (by norm_num)]
    have : (srStep (srState s m) : K) ≤ 2147483646 := by
      exact_mod_cast hbounds.2
    linarith

/-- Witness for C2: the amended theorem applied at seed 12345, `n = 1`. -/
theorem C2_witness :
    0 ≤ srNthValue ℚ 12345 1 ∧ srNthValue ℚ 12345 1 < 1 :=
  C2_next_in_unit_interval ℚ 12345 (by decide) (by decide) 1 (by decide)

/-! ## Claim C1 — determinism of `World` construction

Every quantity a `World` exposes is produced by pure computation from the
constructor seed: both `SeededRandom` streams (airports: `seed + 500`,
thermals: `seed + 700`) and all four noise fields are seeded from it, and
no other input reaches `_generateAirports`, `_generateThermals`,
`getHeightAt` or `getBiomeAt`.  In the embedding `mkWorld` is a function
of the seed, so two constructions from equal seeds agree exactly. -/

/-- Claim C1: two `World`s built from the same seed have identical airport
lists (all fields, in order), identical thermal lists (all fields, in
order), and equal `getHeightAt`/`getBiomeAt` values at every coordinate. -/
theorem C1_world_determinism {K : Type} [LinearOrderedField K] [FloorRing K]
    (M : FloatOps K) (s t : Int) (h : s = t) :
    (mkWorld M s).airports = (mkWorld M t).airports ∧
    (mkWorld M s).thermals = (mkWorld M t).thermals ∧
    (∀ x z : K, (mkWorld M s).getHeightAt x z = (mkWorld M t).getHeightAt x z) ∧
    (∀ x z : K, (mkWorld M s).getBiomeAt x z = (mkWorld M t).getBiomeAt x z) := by
  subst h
  exact ⟨rfl, rfl, fun _ _ => rfl, fun _ _ => rfl⟩

/-- Rational stand-in for the `Math` primitives, used to instantiate
parametric theorems at concrete inputs. -/
def qOps : FloatOps ℚ :=
  { cos := fun _ => 1
    sin := fun _ => 0
    sqrt := fun x => if x ≤ 0 then 0 else max x 1
    exp := fun _ => 1
    acos := fun _ => 0
    pi := 0 }

/-- Witness for C1: the theorem applied at seed 12345 over `ℚ`. -/
theorem C1_witness :
    (mkWorld qOps 12345).airports = (mkWorld qOps 12345).airports ∧
    (mkWorld qOps 12345).thermals = (mkWorld qOps 12345).thermals ∧
    (∀ x z : ℚ, (mkWorld qOps 12345).getHeightAt x z = (mkWorld qOps 12345).getHeightAt x z) ∧
    (∀ x z : ℚ, (mkWorld qOps 12345).getBiomeAt x z = (mkWorld qOps 12345).getBiomeAt x z) :=
  C1_world_determinism qOps 12345 12345 rfl

/-! ## Concrete noise fields for witnesses

Small hand-built `PerlinNoise` values on which `getBiome` can be evaluated
exactly: a zero permutation table with constant gradients. -/

/-- A 512-entry all-zero permutation table. -/
def permZeros : List Nat := List.replicate 512 0

/-- 256 copies of the gradient `(-1, -1)`. -/
def gradNegOnes : List (ℚ × ℚ) := List.replicate 256 (-1, -1)

/-- 256 copies of the zero gradient. -/
def gradZeros : List (ℚ × ℚ) := List.replicate 256 (0, 0)

/-- Noise field whose `noise2D` is identically zero. -/
def flatNoiseW : PerlinNoise ℚ := ⟨0, permZeros, gradZeros⟩

/-- Noise field with constant gradient `(-1, -1)`. -/
def slopeNoiseW : PerlinNoise ℚ := ⟨0, permZeros, gradNegOnes⟩

lemma getD_replicate_of_lt {α : Type} (a d : α) {n i : Nat} (h : i < n) :
    (List.replicate n a).getD i d = a := by
  rw [List.getD_eq_getElem _ _ (by simpa using h)]
  exact List.getElem_replicate _ _

lemma permZeros_getD (i : Nat) : permZeros.getD i 0 = 0 := by
  by_cases h : i < 512
  · exact getD_replicate_of_lt _ _ h
  · exact List.getD_eq_default _ _ (by simpa [permZeros] using Nat.le_of_not_lt h)

lemma gradZeros_getD (i : Nat) : gradZeros.getD (i % 256) (0, 0) = (0, 0) :=
  getD_replicate_of_lt _ _ (Nat.mod_lt _ (by norm_num))

lemma gradNegOnes_getD (i : Nat) : gradNegOnes.getD (i % 256) (0, 0) = (-1, -1) :=
  getD_replicate_of_lt _ _ (Nat.mod_lt _ (by norm_num))

lemma noise2D_flatNoiseW (x y : ℚ) : noise2D flatNoiseW x y = 0 := by
  simp only [noise2D, PerlinNoise.dotg, lerp, flatNoiseW, gradZeros_getD]
  ring

lemma noise2D_slopeNoiseW (x y : ℚ) :
    noise2D slopeNoiseW x y =
      fade (x - ⌊x⌋) + fade (y - ⌊y⌋) - (x - ⌊x⌋) - (y - ⌊y⌋) := by
  simp only [noise2D, PerlinNoise.dotg, lerp, slopeNoiseW, permZeros_getD, gradNegOnes_getD]
  ring

lemma fbmGo_flatNoiseW (x y lac gain : ℚ) :
    ∀ (n : Nat) (amp freq : ℚ), (fbmGo flatNoiseW x y lac gain n amp freq).1 = 0 := by
  intro n
  induction n with
  | zero => intro amp freq; rfl
  | succ n ih =>
    intro amp freq
    simp only [fbmGo, noise2D_flatNoiseW, ih]
    ring

lemma fbm_flatNoiseW (x y : ℚ) (oct : Nat) (lac gain : ℚ) :
    fbm flatNoiseW x y oct lac gain = 0 := by
  simp only [fbm, fbmGo_flatNoiseW]
  simp

lemma fade_quarter : fade (1/4 : ℚ) = 53 / 512 := by
  unfold fade; norm_num

lemma fade_half : fade (1/2 : ℚ) = 1 / 2 := by
  unfold fade; norm_num

lemma fade_zero : fade (0 : ℚ) = 0 := by
  unfold fade; norm_num

/-- `fbm` of the constant-gradient field at `(1/4, 1/4)` over 4 octaves is
`-5/32 < -0.15`, putting the point in the ocean zone. -/
lemma fbm_slope_quarter : fbm slopeNoiseW (1/4) (1/4) 4 2 (1/2) = -5/32 := by
  simp only [fbm, fbmGo, noise2D_slopeNoiseW]
  norm_num [fade]

lemma getBiome_ocean_point :
    getBiome flatNoiseW slopeNoiseW flatNoiseW (2500/3) (2500/3) = BIOME.OCEAN := by
  have h1 : ((2500 : ℚ)/3 * 0.0003) = 1/4 := by norm_num
  have h2 : ((0.5 : ℚ)) = 1/2 := by norm_num
  simp only [getBiome, h1, h2, fbm_slope_quarter, fbm_flatNoiseW]
  norm_num [BIOME.OCEAN]

lemma getBiome_plains_point :
    getBiome flatNoiseW flatNoiseW flatNoiseW 0 0 = BIOME.PLAINS := by
  simp only [getBiome, fbm_flatNoiseW]
  norm_num [BIOME.PLAINS]

/-! ## Claim C4 — terrain height on Ocean and Plains -/

/-- Claim C4: for every coordinate and noise fields, `getTerrainHeight`
returns exactly `-2` when the biome is Ocean, and exactly
`(base*0.5+0.5)*40 + detail*10 + 5` when the biome is Plains, with
`base = fbm(x*0.001, z*0.001, 6)` and
`detail = fbm(x*0.005, z*0.005, 3) * 0.15` on the terrain noise. -/
theorem C4_height_ocean_plains {K : Type} [LinearOrderedField K] [FloorRing K]
    (tn bn isn : PerlinNoise K) (x z : K) :
    (getBiome tn bn isn x z = BIOME.OCEAN → getTerrainHeight tn bn isn x z = -2) ∧
    (getBiome tn bn isn x z = BIOME.PLAINS →
      getTerrainHeight tn bn isn x z =
        (fbm tn (x * 0.001) (z * 0.001) 6 2 0.5 * 0.5 + 0.5) * 40 +
        fbm tn (x * 0.005) (z * 0.005) 3 2 0.5 * 0.15 * 10 + 5) := by
  constructor
  · intro h
    simp only [getTerrainHeight, h]
    norm_num [BIOME.OCEAN]
  · intro h
    simp only [getTerrainHeight, h]
    norm_num [BIOME.OCEAN, BIOME.PLAINS]

/-- Witness for C4: both branches evaluated on concrete noise fields — an
ocean point yields `-2`, a plains point yields the exact formula. -/
theorem C4_witness :
    getTerrainHeight flatNoiseW slopeNoiseW flatNoiseW (2500/3) (2500/3) = -2 ∧
    getTerrainHeight flatNoiseW flatNoiseW flatNoiseW 0 0 =
      (fbm flatNoiseW ((0 : ℚ) * 0.001) (0 * 0.001) 6 2 0.5 * 0.5 + 0.5) * 40 +
      fbm flatNoiseW ((0 : ℚ) * 0.005) (0 * 0.005) 3 2 0.5 * 0.15 * 10 + 5 :=
  ⟨(C4_height_ocean_plains flatNoiseW slopeNoiseW flatNoiseW (2500/3) (2500/3)).1
      getBiome_ocean_point,
   (C4_height_ocean_plains flatNoiseW flatNoiseW flatNoiseW 0 0).2
      getBiome_plains_point⟩

/-! ## Claim C5 — ocean sink in `getThermalLift` -/

/-- Claim C5: at any query point whose biome is Ocean, `getThermalLift`
returns the constants `(lift, temperature, turbulence) = (-1.5, 12, 0.1)`,
for every altitude `y` and regardless of the thermal list. -/
theorem C5_ocean_sink {K : Type} [LinearOrderedField K] [FloorRing K]
    (M : FloatOps K) (w : World K) (x y z : K)
    (h : w.getBiomeAt x z = BIOME.OCEAN) :
    w.getThermalLift M x y z = (-1.5, 12, 0.1) := by
  have h' : getBiome w.terrainNoise w.biomeNoise w.islandNoise x z = BIOME.OCEAN := h
  simp only [World.getThermalLift, h', if_pos]

/-- A world over `ℚ` whose biome noise makes `(2500/3, 2500/3)` ocean. -/
def worldW : World ℚ :=
  ⟨0, flatNoiseW, slopeNoiseW, flatNoiseW, flatNoiseW, [], [], ⟨1, 0, 0.3⟩, 5⟩

/-- Witness for C5: the ocean constant at a concrete point of `worldW`. -/
theorem C5_witness :
    worldW.getThermalLift qOps (2500/3) 100 (2500/3) = (-1.5, 12, 0.1) :=
  C5_ocean_sink qOps worldW (2500/3) 100 (2500/3)
    (by simpa [worldW, World.getBiomeAt] using getBiome_ocean_point)

/-! ## Claim C6 — per-thermal falloff in `getThermalLift`

`World.getThermalLift` folds `thermalStep` (defined above, verbatim from
the loop body) over the thermal list; the claim is about the lift
contribution of one step. -/

/-- Claim C6: for a thermal of positive strength and radius, the step of
`getThermalLift`'s summation leaves the accumulator unchanged when the
planar distance is at least the radius (stated via squares), and strictly
increases the lift total at planar distance 0 when `0 ≤ y < maxAlt`. -/
theorem C6_thermal_falloff {K : Type} [LinearOrderedField K] (M : FloatOps K)
    (hlb : SqrtLB M) (h0 : M.sqrt 0 = 0) (hexp : ExpPos M)
    (th : Thermal K) (x y z : K) (acc : K × K × K)
    (hstr : 0 < th.strength) (hrad : 0 < th.radius) (hy : 0 ≤ y) :
    (th.radius ^ 2 ≤ (x - th.x) ^ 2 + (z - th.z) ^ 2 →
      thermalStep M x y z acc th = acc) ∧
    (x = th.x → z = th.z → y < th.maxAlt →
      acc.1 < (thermalStep M x y z acc th).1) := by
  constructor
  · intro hfar
    have hle : th.radius ≤ M.sqrt ((x - th.x) * (x - th.x) + (z - th.z) * (z - th.z)) := by
      apply hlb _ _ hrad.le
      nlinarith [hfar]
    simp only [thermalStep]
    rw [if_neg]
    intro hc
    exact absurd hc.1 (not_lt.mpr hle)
  · intro hx hz hyalt
    subst hx
    subst hz
    have hmax : 0 < th.maxAlt := lt_of_le_of_lt hy hyalt
    have halt : 0 < 1 - y / th.maxAlt := by
      have : y / th.maxAlt < 1 := (div_lt_one hmax).mpr hyalt
      linarith
    simp only [thermalStep, sub_self, mul_zero, zero_add, add_zero, h0]
    rw [if_pos ⟨hrad, hyalt⟩]
    have hpos : 0 < th.strength * M.exp (-0 / (2 * (th.radius * 0.5) ^ 2)) *
        max 0 (1 - y / th.maxAlt) := by
      apply mul_pos (mul_pos hstr (hexp _))
      exact lt_max_iff.mpr (Or.inr halt)
    exact lt_add_of_pos_right _ hpos

lemma sqrtLB_qOps : SqrtLB qOps := by
  intro x y hy h
  by_cases hx : x ≤ 0
  · have hy0 : y = 0 := by nlinarith
    simp [qOps, hx, hy0]
  · push_neg at hx
    simp only [qOps, if_neg (not_le.mpr hx)]
    rcases le_or_lt y 1 with h1 | h1
    · exact le_max_of_le_right h1
    · exact le_max_of_le_left (by nlinarith)

lemma expPos_qOps : ExpPos qOps := by
  intro x
  norm_num [qOps]

/-- Concrete plains thermal for the C6 witness. -/
def thermalW : Thermal ℚ := ⟨0, 0, 3, 100, 1500, 25, BIOME.PLAINS, 0, true⟩

/-- Witness for C6: zero contribution at distance 200 ≥ radius 100, and a
strict lift increase at the thermal's center below `maxAlt`. -/
theorem C6_witness :
    thermalStep qOps 200 0 0 (0, 15, 0) thermalW = (0, 15, 0) ∧
    (0 : ℚ) < (thermalStep qOps 0 0 0 (0, 15, 0) thermalW).1 :=
  ⟨(C6_thermal_falloff qOps sqrtLB_qOps (by norm_num [qOps]) expPos_qOps
      thermalW 200 0 0 (0, 15, 0) (by norm_num [thermalW]) (by norm_num [thermalW])
      le_rfl).1 (by norm_num [thermalW]),
   (C6_thermal_falloff qOps sqrtLB_qOps (by norm_num [qOps]) expPos_qOps
      thermalW 0 0 0 (0, 15, 0) (by norm_num [thermalW]) (by norm_num [thermalW])
      le_rfl).2 rfl rfl (by norm_num [thermalW])⟩

/-! ## Claim C3 — airport count, origin airport, minimum separation -/

/-- Planar separation of at least 1500 units, stated on squares (for a
linear ordered field this is equivalent to a distance bound). -/
def apSep {K : Type} [LinearOrderedField K] (a b : Airport K) : Prop :=
  (1500 : K) ^ 2 ≤ (a.x - b.x) ^ 2 + (a.z - b.z) ^ 2

lemma createAirportData_x {K : Type} [LinearOrderedField K] [FloorRing K]
    (M : FloatOps K) (tn bn isn : PerlinNoise K) (x z : K) (rng : Int) (id : Nat) :
    (createAirportData M tn bn isn x z rng id).1.x = x := rfl

lemma createAirportData_z {K : Type} [LinearOrderedField K] [FloorRing K]
    (M : FloatOps K) (tn bn isn : PerlinNoise K) (x z : K) (rng : Int) (id : Nat) :
    (createAirportData M tn bn isn x z rng id).1.z = z := rfl

/-- The candidate loop body preserves the airport invariants: size bound,
origin head, pairwise separation. -/
lemma airportAttempt_inv {K : Type} [LinearOrderedField K] [FloorRing K]
    (M : FloatOps K) (tn bn isn : PerlinNoise K) (hub : SqrtUB M)
    (st : Int × List (Airport K)) (hlen : st.2.length < 12)
    (hhead : ∃ a rest, st.2 = a :: rest ∧ a.x = 0 ∧ a.z = 0)
    (hpw : st.2.Pairwise apSep) :
    (airportAttempt M tn bn isn st).2.length ≤ 12 ∧
    (∃ a rest, (airportAttempt M tn bn isn st).2 = a :: rest ∧ a.x = 0 ∧ a.z = 0) ∧
    (airportAttempt M tn bn isn st).2.Pairwise apSep := by
  simp only [airportAttempt]
  split
  · exact ⟨hlen.le, hhead, hpw⟩
  · split
    · exact ⟨hlen.le, hhead, hpw⟩
    · rename_i hbiome htc
      dsimp only
      rw [Bool.not_eq_true, List.any_eq_false] at htc
      refine ⟨?_, ?_, ?_⟩
      · simp only [List.length_append, List.length_cons, List.length_nil]
        omega
      · obtain ⟨a, rest, heq, hx0, hz0⟩ := hhead
        exact ⟨a, rest ++ [_], by rw [heq, List.cons_append], hx0, hz0⟩
      · rw [List.pairwise_append]
        refine ⟨hpw, List.pairwise_singleton _ _, ?_⟩
        intro b hb c hc
        simp only [List.mem_singleton] at hc
        subst hc
        have hfar := htc b hb
        rw [decide_eq_true_iff] at hfar
        rw [apSep, createAirportData_x, createAirportData_z]
        by_contra hclose
        push_neg at hclose
        apply hfar
        apply hub _ _ (by positivity) (by norm_num)
        nlinarith [hclose]

/-- The airport generation loop preserves the invariants for any fuel. -/
lemma airportLoop_inv {K : Type} [LinearOrderedField K] [FloorRing K]
    (M : FloatOps K) (tn bn isn : PerlinNoise K) (hub : SqrtUB M) :
    ∀ (fuel : Nat) (st : Int × List (Airport K)),
      st.2.length ≤ 12 →
      (∃ a rest, st.2 = a :: rest ∧ a.x = 0 ∧ a.z = 0) →
      st.2.Pairwise apSep →
      (airportLoop M tn bn isn fuel st).length ≤ 12 ∧
      (∃ a rest, airportLoop M tn bn isn fuel st = a :: rest ∧ a.x = 0 ∧ a.z = 0) ∧
      (airportLoop M tn bn isn fuel st).Pairwise apSep := by
  intro fuel
  induction fuel with
  | zero => exact fun st h1 h2 h3 => ⟨h1, h2, h3⟩
  | succ fuel ih =>
    intro st h1 h2 h3
    simp only [airportLoop]
    split
    · rename_i hlt
      obtain ⟨g1, g2, g3⟩ := airportAttempt_inv M tn bn isn hub st hlt h2 h3
      exact ih _ g1 g2 g3
    · exact ⟨h1, h2, h3⟩

/-- Claim C3: in every constructed world, there are at most 12 airports,
the first is at `(0, 0)`, and any two distinct airports are at least 1500
units apart in the `(x, z)` plane (stated on squared distances). -/
theorem C3_airport_invariants {K : Type} [LinearOrderedField K] [FloorRing K]
    (M : FloatOps K) (hub : SqrtUB M) (seed : Int) :
    (mkWorld M seed).airports.length ≤ 12 ∧
    (∃ a rest, (mkWorld M seed).airports = a :: rest ∧ a.x = 0 ∧ a.z = 0) ∧
    (mkWorld M seed).airports.Pairwise
      (fun a b => (1500 : K) ^ 2 ≤ (a.x - b.x) ^ 2 + (a.z - b.z) ^ 2) := by
  have h : (mkWorld M seed).airports =
      generateAirports M (mkPerlin M seed) (mkPerlin M (seed + 100))
        (mkPerlin M (seed + 200)) seed := rfl
  rw [h]
  unfold generateAirports
  exact airportLoop_inv M _ _ _ hub 500 _
    (by simp)
    ⟨_, [], rfl, createAirportData_x _ _ _ _ _ _ _ _, createAirportData_z _ _ _ _ _ _ _ _⟩
    (List.pairwise_singleton _ _)

/-- A second rational stand-in whose `sqrt` underestimates every real
square root, satisfying `SqrtUB`. -/
def qOpsLow : FloatOps ℚ :=
  { cos := fun _ => 1
    sin := fun _ => 0
    sqrt := fun _ => -1
    exp := fun _ => 1
    acos := fun _ => 0
    pi := 0 }

lemma sqrtUB_qOpsLow : SqrtUB qOpsLow := by
  intro x y hx hy h
  have : 0 < y := by nlinarith
  simp only [qOpsLow]
  linarith

/-- Witness for C3: the invariants of the world generated from seed 1 over
`ℚ` with the underestimating stand-in primitives. -/
theorem C3_witness :
    (mkWorld qOpsLow 1).airports.length ≤ 12 ∧
    (∃ a rest, (mkWorld qOpsLow 1).airports = a :: rest ∧ a.x = 0 ∧ a.z = 0) ∧
    (mkWorld qOpsLow 1).airports.Pairwise
      (fun a b => (1500 : ℚ) ^ 2 ≤ (a.x - b.x) ^ 2 + (a.z - b.z) ^ 2) :=
  C3_airport_invariants qOpsLow sqrtUB_qOpsLow 1

/-! ## Claims C7–C10 — flight physics -/

/-- The ground-collision section never modifies the stall flag. -/
lemma groundStep_stalling {K : Type} [LinearOrderedField K] (M : FloatOps K)
    (w : WorldI K) (s : State K) : (groundStep M w s).1.stalling = s.stalling := by
  simp only [groundStep]
  repeat' split
  all_goals rfl

/-- After a live `update` step the stall flag is exactly
`decide (aoaDeg > 16 ∨ v < stallSpeed * 0.9)` with the update's own
intermediate values (post-orientation angle of attack, pre-integration
speed). -/
lemma update_stalling {K : Type} [LinearOrderedField K] (M : FloatOps K)
    (dt now : K) (world : Option (WorldI K)) (s : State K)
    (hl : s.landed = false) (hc : s.crashed = false) :
    (update M dt world now s).1.stalling =
      decide (|getAngleOfAttack M (orientationStep M dt s) * 180 / M.pi| > 16 ∨
        speed M s < s.config.stallSpeed * 0.9) := by
  unfold update
  rw [if_neg (by simp [hl, hc])]
  cases world with
  | none =>
    simp only [apply_ite (fun st : State K => st.stalling), ite_self]
  | some w =>
    simp only [groundStep_stalling, apply_ite (fun st : State K => st.stalling), ite_self]

/-- Claim C7: after a live update step the stall flag holds iff the
absolute attack angle (in degrees) exceeds 16 or the (pre-integration)
speed is below 0.9 × configured stall speed; at 20° it is set for every
speed, and at 0° with speed at or above a non-negative stall speed it is
clear. -/
theorem C7_stall_condition {K : Type} [LinearOrderedField K] (M : FloatOps K)
    (dt now : K) (world : Option (WorldI K)) (s : State K)
    (hl : s.landed = false) (hc : s.crashed = false) :
    ((update M dt world now s).1.stalling = true ↔
      (16 < |getAngleOfAttack M (orientationStep M dt s) * 180 / M.pi| ∨
        speed M s < s.config.stallSpeed * 0.9)) ∧
    (getAngleOfAttack M (orientationStep M dt s) * 180 / M.pi = 20 →
      (update M dt world now s).1.stalling = true) ∧
    (getAngleOfAttack M (orientationStep M dt s) = 0 →
      0 ≤ s.config.stallSpeed → s.config.stallSpeed ≤ speed M s →
      (update M dt world now s).1.stalling = false) := by
  have hmain := update_stalling M dt now world s hl hc
  refine ⟨?_, ?_, ?_⟩
  · rw [hmain]
    exact decide_eq_true_iff
  · intro h20
    rw [hmain, h20]
    simp only [decide_eq_true_iff]
    left
    rw [abs_of_pos (by norm_num : (0 : K) < 20)]
    norm_num
  · intro h0 hnn hge
    rw [hmain, h0]
    simp only [zero_mul, zero_div, abs_zero, decide_eq_false_iff_not, not_or, not_lt]
    exact ⟨by norm_num, by nlinarith⟩

/-- Aircraft state for physics witnesses: freshly airborne, otherwise the
constructor state. -/
def stateW {K : Type} [LinearOrderedField K] : State K :=
  { initialState with landed := false, crashed := false }

/-- Witness for C7: the stall characterisation applied to a concrete state
over `ℚ`. -/
theorem C7_witness :
    ((update qOps (1/60) none 0 stateW).1.stalling = true ↔
      (16 < |getAngleOfAttack qOps (orientationStep qOps (1/60) stateW) * 180 / qOps.pi| ∨
        speed qOps stateW < stateW.config.stallSpeed * 0.9)) ∧
    (getAngleOfAttack qOps (orientationStep qOps (1/60) stateW) * 180 / qOps.pi = 20 →
      (update qOps (1/60) none 0 stateW).1.stalling = true) ∧
    (getAngleOfAttack qOps (orientationStep qOps (1/60) stateW) = 0 →
      (0 : ℚ) ≤ stateW.config.stallSpeed → stateW.config.stallSpeed ≤ speed qOps stateW →
      (update qOps (1/60) none 0 stateW).1.stalling = false) :=
  C7_stall_condition qOps (1/60) 0 none stateW rfl rfl

/-- A live `update` is the identity (with no return value) on a landed or
crashed state. -/
lemma update_noop {K : Type} [LinearOrderedField K] (M : FloatOps K)
    (dt now : K) (world : Option (WorldI K)) (s : State K)
    (h : s.landed = true ∨ s.crashed = true) :
    update M dt world now s = (s, none) := by
  unfold update
  rw [if_pos (by rcases h with h | h <;> simp [h])]

/-- Claim C9: when the landed or crashed flag is set, `update` changes no
field of the aircraft state; in particular after `resetAt` any sequence of
update calls (arbitrary `dt`, world, clock) leaves the state fixed. -/
theorem C9_update_noop {K : Type} [LinearOrderedField K] (M : FloatOps K) (s : State K) :
    (s.landed = true ∨ s.crashed = true →
      ∀ (dt now : K) (world : Option (WorldI K)), update M dt world now s = (s, none)) ∧
    (∀ (ap : Airport K) (steps : List (K × Option (WorldI K) × K)),
      steps.foldl (fun st a => (update M a.1 a.2.1 a.2.2 st).1) (resetAt M ap s) =
        resetAt M ap s) := by
  constructor
  · intro h dt now world
    exact update_noop M dt now world s h
  · intro ap steps
    induction steps with
    | nil => rfl
    | cons a l ih =>
      rw [List.foldl_cons, update_noop M a.1 a.2.2 a.2.1 _ (Or.inl rfl)]
      exact ih

/-- Concrete airport for physics witnesses. -/
def airportW {K : Type} [LinearOrderedField K] : Airport K :=
  ⟨0, "Skyport Alpha", 0, 0, 5, 0, 200, 30, BIOME.PLAINS⟩

/-- Witness for C9: a landed state is untouched by `update`, and updates
after `resetAt` are no-ops, at concrete inputs over `ℚ`. -/
theorem C9_witness :
    update qOps (1/60) none 0 initialState = (initialState, none) ∧
    [((1 : ℚ)/60, (none : Option (WorldI ℚ)), (0 : ℚ))].foldl
      (fun st a => (update qOps a.1 a.2.1 a.2.2 st).1) (resetAt qOps airportW initialState) =
      resetAt qOps airportW initialState :=
  ⟨(C9_update_noop qOps initialState).1 (Or.inl rfl) (1/60) 0 none,
   (C9_update_noop qOps initialState).2 airportW [((1 : ℚ)/60, none, 0)]⟩

/-- The flag-clearing prefix of `launch` (the `s0` state before the
branch on the launch type). -/
def launchPrepped {K : Type} [LinearOrderedField K] (s : State K) : State K :=
  { s with landed := false, crashed := false, isLaunching := true,
           cargoSpoiled := false, thermalHeatTime := 0 }

/-- Claim C10: `launch` with any argument other than the exact string
`"cable"` — e.g. `"aerotow"`, misspellings, arbitrary strings — takes the
aerotow branch (forward speed 25 m/s, thrust `totalMass·G·1.2`, 15 s
timer) and clears the landed, crashed and cargo-spoilage flags and the
heat timer; `launch` is total, with no rejection path for unknown types. -/
theorem C10_launch_default_aerotow {K : Type} [LinearOrderedField K] (M : FloatOps K)
    (ty : String) (s : State K) (h : ty ≠ "cable") :
    launch M ty s =
      { launchPrepped s with
          launchThrust := totalMass s * GRAV * 1.2
          launchTimer := 15
          velocity := vsmul 25 (forward M (launchPrepped s)) } := by
  unfold launch launchPrepped
  rw [if_neg h]

/-- Witness for C10: `launch "aerotow"` on a concrete state over `ℚ`. -/
theorem C10_witness :
    launch qOps "aerotow" initialState =
      { launchPrepped (initialState : State ℚ) with
          launchThrust := totalMass (initialState : State ℚ) * GRAV * 1.2
          launchTimer := 15
          velocity := vsmul 25 (forward qOps (launchPrepped initialState)) } :=
  C10_launch_default_aerotow qOps "aerotow" initialState (by decide)

/-! ## Claim C8 — landing versus crash classification

`update` delegates its ground-interaction section to `groundStep`; the
claim conditions on the post-integration state (altitude at or below
terrain + 1, over an airport), so it is stated on `groundStep` directly.
Note `hSpeed` in the source is the *total* speed in km/h; with vertical
speed 1 m/s and horizontal speed 30 km/h the total is `√(634/9) · 3.6 ≈
30.2 km/h`, still below the 40 km/h gate, and with horizontal speed
60 km/h it is above it. -/

/-- Claim C8: in the ground-interaction step, an aircraft at or below
terrain + 1 over an airport with vertical speed 1 m/s takes the landing
branch at horizontal speed 30 km/h (returns `landing` or `landed`, never
sets `crashed`), and crashes at horizontal speed 60 km/h (sets `crashed`,
zeroes the velocity, returns `crashed`). -/
theorem C8_landing_vs_crash {K : Type} [LinearOrderedField K] (M : FloatOps K)
    (hlb : SqrtLB M) (hub : SqrtUB M) (w : WorldI K) (s : State K) (ap : Airport K)
    (hc : s.crashed = false)
    (hground : s.position.y ≤ w.getHeightAt s.position.x s.position.z + 1)
    (hap : w.getAirportAt s.position.x s.position.y s.position.z = some ap)
    (hv : |s.velocity.y| = 1) :
    (s.velocity.x ^ 2 + s.velocity.z ^ 2 = (25/3) ^ 2 →
      ((groundStep M w s).2 = some UpdateResult.landing ∨
        (groundStep M w s).2 = some UpdateResult.landed) ∧
      (groundStep M w s).1.crashed = false) ∧
    (s.velocity.x ^ 2 + s.velocity.z ^ 2 = (50/3) ^ 2 →
      (groundStep M w s).1.crashed = true ∧
      (groundStep M w s).1.velocity = ⟨0, 0, 0⟩ ∧
      (groundStep M w s).2 = some UpdateResult.crashed) := by
  have hy2 : s.velocity.y * s.velocity.y = 1 := by
    rcases (abs_eq (by norm_num : (0 : K) ≤ 1)).mp hv with h | h <;> rw [h] <;> norm_num
  have hvS : |s.velocity.y| < 2 := by rw [hv]; norm_num
  constructor
  · intro hsc
    have hlen : vlengthSq s.velocity = 634/9 := by
      unfold vlengthSq
      linear_combination hsc + hy2
    have hS : speedKmh M s < 40 := by
      unfold speedKmh speed vlength
      rw [hlen]
      have := hub (634/9) (100/9) (by norm_num) (by norm_num) (by norm_num)
      linarith
    simp only [groundStep, hap]
    rw [if_pos hground, if_pos ⟨hvS, hS⟩]
    constructor
    · split
      · right; rfl
      · left; rfl
    · split
      · exact hc
      · exact hc
  · intro hsc
    have hlen : vlengthSq s.velocity = 2509/9 := by
      unfold vlengthSq
      linear_combination hsc + hy2
    have hS : ¬ speedKmh M s < 40 := by
      unfold speedKmh speed vlength
      rw [hlen]
      have := hlb (2509/9) (100/9) (by norm_num) (by norm_num)
      intro hcon
      linarith
    simp only [groundStep, hap]
    rw [if_pos hground, if_neg (fun hand => hS hand.2)]
    exact ⟨rfl, rfl, rfl⟩

/-- A minimal world interface over a flat terrain at height 0 whose every
point lies on the given airport. -/
def wFlat {K : Type} [LinearOrderedField K] (ap : Airport K) : WorldI K :=
  ⟨fun _ _ _ => (0, 15, 0), fun _ _ => 0, fun _ _ _ => some ap, ⟨1, 0, 0⟩, 5⟩

/-- Touch-down state with vertical speed 1 m/s and horizontal speed
30 km/h (= 25/3 m/s). -/
def stateA {K : Type} [LinearOrderedField K] : State K :=
  { initialState with landed := false, crashed := false,
                      position := ⟨0, 0, 0⟩, velocity := ⟨25/3, -1, 0⟩ }

/-- Touch-down state with vertical speed 1 m/s and horizontal speed
60 km/h (= 50/3 m/s). -/
def stateB {K : Type} [LinearOrderedField K] : State K :=
  { initialState with landed := false, crashed := false,
                      position := ⟨0, 0, 0⟩, velocity := ⟨50/3, -1, 0⟩ }

lemma sqrtLB_real :
    SqrtLB (⟨Real.cos, Real.sin, Real.sqrt, Real.exp, Real.arccos, Real.pi⟩ : FloatOps ℝ) := by
  intro x y hy h
  have hx : (0 : ℝ) ≤ x := le_trans (sq_nonneg y) h
  exact (Real.le_sqrt hy hx).mpr h

lemma sqrtUB_real :
    SqrtUB (⟨Real.cos, Real.sin, Real.sqrt, Real.exp, Real.arccos, Real.pi⟩ : FloatOps ℝ) := by
  intro x y hx hy h
  have hy' : (0 : ℝ) < y := by nlinarith
  exact (Real.sqrt_lt' hy').mpr h

/-- Witness for C8: over `ℝ` with the genuine square root, the 30 km/h
touch-down lands and the 60 km/h touch-down crashes. -/
theorem C8_witness :
    (((groundStep (⟨Real.cos, Real.sin, Real.sqrt, Real.exp, Real.arccos, Real.pi⟩ : FloatOps ℝ)
        (wFlat airportW) stateA).2 = some UpdateResult.landing ∨
      (groundStep (⟨Real.cos, Real.sin, Real.sqrt, Real.exp, Real.arccos, Real.pi⟩ : FloatOps ℝ)
        (wFlat airportW) stateA).2 = some UpdateResult.landed) ∧
     (groundStep (⟨Real.cos, Real.sin, Real.sqrt, Real.exp, Real.arccos, Real.pi⟩ : FloatOps ℝ)
        (wFlat airportW) stateA).1.crashed = false) ∧
    ((groundStep (⟨Real.cos, Real.sin, Real.sqrt, Real.exp, Real.arccos, Real.pi⟩ : FloatOps ℝ)
        (wFlat airportW) stateB).1.crashed = true ∧
     (groundStep (⟨Real.cos, Real.sin, Real.sqrt, Real.exp, Real.arccos, Real.pi⟩ : FloatOps ℝ)
        (wFlat airportW) stateB).1.velocity = ⟨0, 0, 0⟩ ∧
     (groundStep (⟨Real.cos, Real.sin, Real.sqrt, Real.exp, Real.arccos, Real.pi⟩ : FloatOps ℝ)
        (wFlat airportW) stateB).2 = some UpdateResult.crashed) :=
  ⟨(C8_landing_vs_crash _ sqrtLB_real sqrtUB_real (wFlat airportW) stateA airportW
      rfl (by norm_num [stateA, initialState, wFlat]) rfl
      (by norm_num [stateA, initialState])).1
      (by norm_num [stateA, initialState]),
   (C8_landing_vs_crash _ sqrtLB_real sqrtUB_real (wFlat airportW) stateB airportW
      rfl (by norm_num [stateB, initialState, wFlat]) rfl
      (by norm_num [stateB, initialState])).2
      (by norm_num [stateB, initialState])⟩

end Fly
